import Mathlib

/-!
Shallow embedding of the accounting derivation engine of
`src/app.py` (General Accounting Lab).

The engine consists of five functions over two input tables:
`calcula_balancete`, `calcula_dre`, `calcula_balanco`,
`calcula_fluxo_caixa_direto`, `calcula_fluxo_caixa_indireto`.

Modelling conventions:
- a pandas DataFrame row becomes a Lean structure; a DataFrame becomes a
  `List` of rows, kept in order (pandas preserves row order here);
- monetary values (Python floats holding currency amounts) are modelled
  as exact rationals `ℚ`;
- the pandas operation `plano.loc[cod, "grupo"]` on a frame indexed by
  `codigo` raises `KeyError` when `cod` is absent; this fallibility is
  modelled with `Option` (a `none` result is a raised exception);
- `calcula_fluxo_caixa_indireto` assigns a new column
  `fluxo_direto["saldo"]` on its argument in place; the optional derived
  column is modelled by the `saldo_col : Option (List ℚ)` field of
  `FluxoDf`, and the function returns the post-call state of its
  `fluxo_direto` argument next to its output so the in-place write is
  observable.
-/

/-- One row of the chart of accounts (`plano_contas`): columns
`codigo, conta, grupo, natureza, eh_caixa`. -/
structure Conta where
  codigo : String
  conta : String
  grupo : String
  natureza : String
  eh_caixa : Bool
deriving Repr, DecidableEq

/-- One row of the journal (`lancamentos`): columns
`data, historico, conta_debito, conta_credito, valor`. -/
structure Lancamento where
  data : String
  historico : String
  conta_debito : String
  conta_credito : String
  valor : ℚ
deriving Repr, DecidableEq

/-- Intermediate state of a `calcula_balancete` row after the columns
`debito` and `credito` have been added but before the saldo columns. -/
structure LinhaTotais where
  codigo : String
  conta : String
  grupo : String
  natureza : String
  eh_caixa : Bool
  debito : ℚ
  credito : ℚ
deriving Repr, DecidableEq

/-- A finished trial-balance row: the chart columns plus
`debito, credito, saldo, saldo_devedor, saldo_credor`. -/
structure LinhaBalancete where
  codigo : String
  conta : String
  grupo : String
  natureza : String
  eh_caixa : Bool
  debito : ℚ
  credito : ℚ
  saldo : ℚ
  saldo_devedor : ℚ
  saldo_credor : ℚ
deriving Repr, DecidableEq

/-- The debit-side update of one journal entry on one row:
`bal.loc[mask_d, "debito"] += l["valor"]` restricted to this row
(`mask_d` is `bal["codigo"] == l["conta_debito"]`). -/
def postRowDebito (l : Lancamento) (r : LinhaTotais) : LinhaTotais :=
  if r.codigo == l.conta_debito then { r with debito := r.debito + l.valor } else r

/-- The credit-side update of one journal entry on one row:
`bal.loc[mask_c, "credito"] += l["valor"]` restricted to this row. -/
def postRowCredito (l : Lancamento) (r : LinhaTotais) : LinhaTotais :=
  if r.codigo == l.conta_credito then { r with credito := r.credito + l.valor } else r

/-- Effect of one journal entry on one row of the totals table (both
mask updates; they touch disjoint columns and leave `codigo` alone, so
applying them one after the other agrees with the two pandas mask
assignments computed from the same `bal`). -/
def postRow (l : Lancamento) (r : LinhaTotais) : LinhaTotais :=
  postRowCredito l (postRowDebito l r)

/-- One iteration of the `for _, l in lancamentos.iterrows()` loop of
`calcula_balancete`: both mask updates applied to every row. -/
def postLancamento (l : Lancamento) (rows : List LinhaTotais) : List LinhaTotais :=
  rows.map (postRow l)

/-- `bal = plano_contas.copy(); bal["debito"] = 0.0; bal["credito"] = 0.0`. -/
def totaisIniciais (plano : List Conta) : List LinhaTotais :=
  plano.map fun c => ⟨c.codigo, c.conta, c.grupo, c.natureza, c.eh_caixa, 0, 0⟩

/-- The totals table after the whole entry loop of `calcula_balancete`. -/
def totais (plano : List Conta) (lancs : List Lancamento) : List LinhaTotais :=
  lancs.foldl (fun rows l => postLancamento l rows) (totaisIniciais plano)

/-- The saldo computation of `calcula_balancete` for one row: branch on
`row["natureza"] == "Devedora"`, else the credit-natured formulas. -/
def saldosDe (r : LinhaTotais) : LinhaBalancete :=
  if r.natureza == "Devedora" then
    let s := r.debito - r.credito
    ⟨r.codigo, r.conta, r.grupo, r.natureza, r.eh_caixa, r.debito, r.credito,
      s, max s 0, max (-s) 0⟩
  else
    let s := r.credito - r.debito
    ⟨r.codigo, r.conta, r.grupo, r.natureza, r.eh_caixa, r.debito, r.credito,
      s, max (-s) 0, max s 0⟩

/-- `calcula_balancete(plano_contas, lancamentos)` of `src/app.py`:
sum debits and credits per account over the journal, then derive
`saldo`, `saldo_devedor`, `saldo_credor` per the account's nature. -/
def calcula_balancete (plano : List Conta) (lancs : List Lancamento) :
    List LinhaBalancete :=
  (totais plano lancs).map saldosDe

/-- One row of the DRE output table: columns `descrição, detalhe, valor`. -/
structure LinhaDre where
  descricao : String
  detalhe : String
  valor : ℚ
deriving Repr, DecidableEq

/-- `calcula_dre(balancete)` of `src/app.py`: filter the revenue and
expense groups, total `saldo_credor` resp. `saldo_devedor`, and emit the
three fixed lines together with `lucro_liquido`. -/
def calcula_dre (balancete : List LinhaBalancete) : List LinhaDre × ℚ :=
  let receitas := balancete.filter fun r => r.grupo == "Resultado - Receita"
  let despesas := balancete.filter fun r => r.grupo == "Resultado - Despesa"
  let total_receitas := (receitas.map (·.saldo_credor)).sum
  let total_despesas := (despesas.map (·.saldo_devedor)).sum
  let lucro_liquido := total_receitas - total_despesas
  ([⟨"Receitas", "", total_receitas⟩,
    ⟨"(-) Despesas", "", -total_despesas⟩,
    ⟨"= Lucro / Prejuízo do Período", "", lucro_liquido⟩],
   lucro_liquido)

/-- One row of a balance-sheet bucket: columns `codigo, conta, valor`. -/
structure LinhaPatrimonial where
  codigo : String
  conta : String
  valor : ℚ
deriving Repr, DecidableEq

/-- The dictionary returned by `calcula_balanco`. -/
structure Balanco where
  ativo : List LinhaPatrimonial
  passivo : List LinhaPatrimonial
  pl : List LinhaPatrimonial
deriving Repr, DecidableEq

/-- `calcula_balanco(balancete)` of `src/app.py`: filter each
patrimonial group, value assets at `saldo_devedor` and liabilities and
equity at `saldo_credor`, and keep columns `codigo, conta, valor`. -/
def calcula_balanco (balancete : List LinhaBalancete) : Balanco :=
  { ativo := (balancete.filter fun r => r.grupo == "Ativo").map
      fun r => ⟨r.codigo, r.conta, r.saldo_devedor⟩
    passivo := (balancete.filter fun r => r.grupo == "Passivo").map
      fun r => ⟨r.codigo, r.conta, r.saldo_credor⟩
    pl := (balancete.filter fun r => r.grupo == "Patrimônio Líquido").map
      fun r => ⟨r.codigo, r.conta, r.saldo_credor⟩ }

/-- One row of the direct-method cash-flow table: columns
`tipo, grupo_contraparte, entrada, saida`. -/
structure LinhaFluxo where
  tipo : String
  grupo_contraparte : String
  entrada : ℚ
  saida : ℚ
deriving Repr, DecidableEq

/-- The direct-method cash-flow DataFrame. `saldo_col` models the
optional derived column `fluxo_direto["saldo"]`: it is `none` on every
frame produced by `calcula_fluxo_caixa_direto` and is assigned in place
by `calcula_fluxo_caixa_indireto` when the frame is nonempty. -/
structure FluxoDf where
  linhas : List LinhaFluxo
  saldo_col : Option (List ℚ)
deriving Repr, DecidableEq

/-- `plano_contas[plano_contas["eh_caixa"]]["codigo"].tolist()`. -/
def contas_caixa (plano : List Conta) : List String :=
  (plano.filter fun c => c.eh_caixa).map (·.codigo)

/-- `plano.loc[cod]` after `plano = plano_contas.set_index("codigo")`:
`none` models the `KeyError` raised when `cod` is not a chart code. -/
def planoIdx (plano : List Conta) (cod : String) : Option Conta :=
  plano.find? fun c => c.codigo == cod

/-- One iteration of the classification loop of
`calcula_fluxo_caixa_direto`: `some (some linha)` appends a line,
`some none` appends nothing, and `none` is a `KeyError` raised by
`plano.loc[...]` on an unresolved counterpart code. -/
def classifica (plano : List Conta) (l : Lancamento) : Option (Option LinhaFluxo) :=
  let cc := contas_caixa plano
  if l.conta_debito ∈ cc ∧ l.conta_credito ∉ cc then
    match planoIdx plano l.conta_credito with
    | some c => some (some ⟨"Entrada de Caixa", c.grupo, l.valor, 0⟩)
    | none => none
  else if l.conta_credito ∈ cc ∧ l.conta_debito ∉ cc then
    match planoIdx plano l.conta_debito with
    | some c => some (some ⟨"Saída de Caixa", c.grupo, 0, l.valor⟩)
    | none => none
  else
    some none

/-- The list `linhas` built by the classification loop of
`calcula_fluxo_caixa_direto` (`none` = the loop raised `KeyError`). -/
def linhasDireto (plano : List Conta) : List Lancamento → Option (List LinhaFluxo)
  | [] => some []
  | l :: ls =>
    match classifica plano l with
    | none => none
    | some r =>
      match linhasDireto plano ls with
      | none => none
      | some rest =>
        match r with
        | some linha => some (linha :: rest)
        | none => some rest

/-- Comparison used to model
`sort_values(["tipo", "grupo_contraparte"])`: lexicographic on the pair
of labels. -/
def chaveLe (a b : String × String) : Bool :=
  decide (a.1 < b.1) || (a.1 == b.1 && !decide (b.2 < a.2))

/-- Insertion into a list sorted by `chaveLe`. -/
def insereChave (k : String × String) : List (String × String) → List (String × String)
  | [] => [k]
  | k2 :: ks => if chaveLe k k2 then k :: k2 :: ks else k2 :: insereChave k ks

/-- Sort the group keys ascending by `(tipo, grupo_contraparte)`. -/
def ordenaChaves : List (String × String) → List (String × String)
  | [] => []
  | k :: ks => insereChave k (ordenaChaves ks)

/-- The summed row of one `groupby(["tipo", "grupo_contraparte"])` group. -/
def somaGrupoFluxo (linhas : List LinhaFluxo) (k : String × String) : LinhaFluxo :=
  let grp := linhas.filter fun r => r.tipo == k.1 && r.grupo_contraparte == k.2
  ⟨k.1, k.2, (grp.map (·.entrada)).sum, (grp.map (·.saida)).sum⟩

/-- `df.groupby(["tipo","grupo_contraparte"], as_index=False)[["entrada","saida"]]
.sum().sort_values(["tipo","grupo_contraparte"])`. -/
def resumoFluxo (linhas : List LinhaFluxo) : List LinhaFluxo :=
  (ordenaChaves ((linhas.map fun r => (r.tipo, r.grupo_contraparte)).dedup)).map
    (somaGrupoFluxo linhas)

/-- `calcula_fluxo_caixa_direto(plano_contas, lancamentos)` of
`src/app.py`. `none` models the `KeyError` that escapes when an entry
has exactly one cash side and the other side's code is missing from the
chart. -/
def calcula_fluxo_caixa_direto (plano : List Conta) (lancs : List Lancamento) :
    Option FluxoDf :=
  if lancs.isEmpty then some ⟨[], none⟩
  else
    match linhasDireto plano lancs with
    | none => none
    | some linhas =>
      if linhas.isEmpty then some ⟨[], none⟩
      else some ⟨resumoFluxo linhas, none⟩

/-- One row of the indirect-method output table: columns `descrição, valor`. -/
structure LinhaIndireto where
  descricao : String
  valor : ℚ
deriving Repr, DecidableEq

/-- `calcula_fluxo_caixa_indireto(balancete, fluxo_direto, lucro_liquido)`
of `src/app.py`. The first component of the result is the state of the
`fluxo_direto` argument after the call: when the frame is nonempty the
function writes `fluxo_direto["saldo"] = entrada - saida` in place
before summing that column. -/
def calcula_fluxo_caixa_indireto (balancete : List LinhaBalancete)
    (fluxo_direto : FluxoDf) (lucro_liquido : ℚ) : FluxoDf × List LinhaIndireto :=
  let caixa := balancete.filter fun r => r.eh_caixa
  let variacao_caixa := (caixa.map (·.saldo)).sum
  let resultado :=
    if fluxo_direto.linhas.isEmpty then (fluxo_direto, (0 : ℚ))
    else
      let col := fluxo_direto.linhas.map fun r => r.entrada - r.saida
      (⟨fluxo_direto.linhas, some col⟩, col.sum)
  let fluxo_apos := resultado.1
  let caixa_oper := resultado.2
  let ajuste_capital_giro := caixa_oper - lucro_liquido
  (fluxo_apos,
   [⟨"Lucro / Prejuízo do Período", lucro_liquido⟩,
    ⟨"(+/-) Ajustes no capital de giro (simplificado)", ajuste_capital_giro⟩,
    ⟨"= Caixa líquido das atividades operacionais", caixa_oper⟩,
    ⟨"Variação de Caixa no Período", variacao_caixa⟩])

/-- The totals table when one designated entry `e` of the journal posts
only its credit side (its debit-side contribution omitted); used to
state the unresolved-debit-reference tolerance of `calcula_balancete`. -/
def totaisSemDebitoDe (plano : List Conta) (pre : List Lancamento)
    (e : Lancamento) (post : List Lancamento) : List LinhaTotais :=
  post.foldl (fun rows l => postLancamento l rows)
    ((totais plano pre).map (postRowCredito e))

/-- Trial balance computed with the debit side of `e` omitted. -/
def balanceteSemDebitoDe (plano : List Conta) (pre : List Lancamento)
    (e : Lancamento) (post : List Lancamento) : List LinhaBalancete :=
  (totaisSemDebitoDe plano pre e post).map saldosDe

/-- The totals table when one designated entry `e` of the journal posts
only its debit side (its credit-side contribution omitted). -/
def totaisSemCreditoDe (plano : List Conta) (pre : List Lancamento)
    (e : Lancamento) (post : List Lancamento) : List LinhaTotais :=
  post.foldl (fun rows l => postLancamento l rows)
    ((totais plano pre).map (postRowDebito e))

/-- Trial balance computed with the credit side of `e` omitted. -/
def balanceteSemCreditoDe (plano : List Conta) (pre : List Lancamento)
    (e : Lancamento) (post : List Lancamento) : List LinhaBalancete :=
  (totaisSemCreditoDe plano pre e post).map saldosDe

/-- A cash asset account, as in the seeded default chart. -/
def contaCaixaEx : Conta := ⟨"1.1.1", "Caixa", "Ativo", "Devedora", true⟩

/-- A revenue account, as in the seeded default chart. -/
def contaReceitaEx : Conta :=
  ⟨"3.1.1", "Receita de Vendas", "Resultado - Receita", "Credora", false⟩

/-- An expense account, as in the seeded default chart. -/
def contaDespesaEx : Conta :=
  ⟨"4.1.2", "Despesas com Pessoal", "Resultado - Despesa", "Devedora", false⟩

/-- Concrete chart of accounts used in witnesses (the spec's scenario:
a cash asset account, a revenue account and an expense account). -/
def planoEx : List Conta := [contaCaixaEx, contaReceitaEx, contaDespesaEx]

/-- A sale of 1000 received in cash. -/
def lancEx1 : Lancamento := ⟨"2024-01-01", "venda a vista", "1.1.1", "3.1.1", 1000⟩

/-- An expense of 300 paid in cash. -/
def lancEx2 : Lancamento :=
  ⟨"2024-01-02", "pagamento de salarios", "4.1.2", "1.1.1", 300⟩

/-- A journal entry whose debit code `9.9.9` exists in no chart used here. -/
def lancSemDebitoEx : Lancamento :=
  ⟨"2024-01-03", "codigo inexistente", "9.9.9", "3.1.1", 40⟩

/-- Concrete journal used in witnesses (the spec's scenario). -/
def lancsEx : List Lancamento := [lancEx1, lancEx2]

/-- Two-account chart used to witness the balance sign conventions. -/
def planoSinais : List Conta :=
  [⟨"D", "Conta Devedora", "Ativo", "Devedora", false⟩,
   ⟨"C", "Conta Credora", "Passivo", "Credora", false⟩]

/-- Journal driving both accounts of `planoSinais` to
`debito = 100, credito = 30` (the unmatched code `zz` posts nothing). -/
def lancsSinais : List Lancamento :=
  [⟨"x", "", "D", "zz", 100⟩, ⟨"x", "", "zz", "D", 30⟩,
   ⟨"x", "", "C", "zz", 100⟩, ⟨"x", "", "zz", "C", 30⟩]

/-- One-account chart whose `natureza` field holds the misspelled value
`"devedora"` (lowercase), not a member of the documented enumeration. -/
def planoMisspelled : List Conta :=
  [⟨"X", "Conta X", "Ativo", "devedora", false⟩]

/-- Journal driving the account of `planoMisspelled` to
`debito = 100, credito = 30`. -/
def lancsMisspelled : List Lancamento :=
  [⟨"x", "", "X", "zz", 100⟩, ⟨"x", "", "zz", "X", 30⟩]

/-- The trial-balance row `calcula_balancete planoSinais lancsSinais`
produces for the debit-natured account. -/
def rDevEx : LinhaBalancete :=
  ⟨"D", "Conta Devedora", "Ativo", "Devedora", false, 100, 30, 70, 70, 0⟩

/-- The trial-balance row `calcula_balancete planoSinais lancsSinais`
produces for the credit-natured account. -/
def rCredEx : LinhaBalancete :=
  ⟨"C", "Conta Credora", "Passivo", "Credora", false, 100, 30, -70, 70, 0⟩

/-- The trial-balance row `calcula_balancete planoMisspelled
lancsMisspelled` produces for the misspelled-nature account. -/
def rMisEx : LinhaBalancete :=
  ⟨"X", "Conta X", "Ativo", "devedora", false, 100, 30, -70, 70, 0⟩

/-- Neither mask update changes the `codigo` column. -/
theorem postRowDebito_codigo (l : Lancamento) (r : LinhaTotais) :
    (postRowDebito l r).codigo = r.codigo := by
  unfold postRowDebito; split <;> rfl

theorem postRowCredito_codigo (l : Lancamento) (r : LinhaTotais) :
    (postRowCredito l r).codigo = r.codigo := by
  unfold postRowCredito; split <;> rfl

theorem postRow_codigo (l : Lancamento) (r : LinhaTotais) :
    (postRow l r).codigo = r.codigo := by
  rw [postRow, postRowCredito_codigo, postRowDebito_codigo]

theorem postRowDebito_debito (l : Lancamento) (r : LinhaTotais) :
    (postRowDebito l r).debito =
      if r.codigo == l.conta_debito then r.debito + l.valor else r.debito := by
  unfold postRowDebito; split <;> rfl

theorem postRowDebito_credito (l : Lancamento) (r : LinhaTotais) :
    (postRowDebito l r).credito = r.credito := by
  unfold postRowDebito; split <;> rfl

theorem postRowCredito_credito (l : Lancamento) (r : LinhaTotais) :
    (postRowCredito l r).credito =
      if r.codigo == l.conta_credito then r.credito + l.valor else r.credito := by
  unfold postRowCredito; split <;> rfl

theorem postRowCredito_debito (l : Lancamento) (r : LinhaTotais) :
    (postRowCredito l r).debito = r.debito := by
  unfold postRowCredito; split <;> rfl

theorem postRow_debito (l : Lancamento) (r : LinhaTotais) :
    (postRow l r).debito =
      if r.codigo == l.conta_debito then r.debito + l.valor else r.debito := by
  rw [postRow, postRowCredito_debito, postRowDebito_debito]

theorem postRow_credito (l : Lancamento) (r : LinhaTotais) :
    (postRow l r).credito =
      if r.codigo == l.conta_credito then r.credito + l.valor else r.credito := by
  rw [postRow, postRowCredito_credito, postRowDebito_codigo, postRowDebito_credito]

/-- The saldo pass copies the `debito` column unchanged. -/
theorem saldosDe_debito (r : LinhaTotais) : (saldosDe r).debito = r.debito := by
  unfold saldosDe; split <;> rfl

/-- The saldo pass copies the `credito` column unchanged. -/
theorem saldosDe_credito (r : LinhaTotais) : (saldosDe r).credito = r.credito := by
  unfold saldosDe; split <;> rfl

/-- The saldo pass copies the `natureza` column unchanged. -/
theorem saldosDe_natureza (r : LinhaTotais) : (saldosDe r).natureza = r.natureza := by
  unfold saldosDe; split <;> rfl

/-- C6: for every trial balance, `calcula_dre` returns a net income
equal exactly to the sum of `saldo_credor` over the Revenue rows minus
the sum of `saldo_devedor` over the Expense rows, and exactly three
lines in order: Revenues at the revenue total, Expenses at minus the
expense total, and Net Income/Loss at the net income, with no
per-account breakdown lines. -/
theorem dre_postcondition (balancete : List LinhaBalancete) :
    (calcula_dre balancete).2 =
        ((balancete.filter fun r => r.grupo == "Resultado - Receita").map
            (·.saldo_credor)).sum
          - ((balancete.filter fun r => r.grupo == "Resultado - Despesa").map
            (·.saldo_devedor)).sum
      ∧ (calcula_dre balancete).1 =
        [⟨"Receitas", "",
            ((balancete.filter fun r => r.grupo == "Resultado - Receita").map
              (·.saldo_credor)).sum⟩,
         ⟨"(-) Despesas", "",
            -((balancete.filter fun r => r.grupo == "Resultado - Despesa").map
              (·.saldo_devedor)).sum⟩,
         ⟨"= Lucro / Prejuízo do Período", "", (calcula_dre balancete).2⟩] :=
  ⟨rfl, rfl⟩

/-- C8: for every trial balance, `calcula_balanco` returns three buckets
holding exactly the rows of group Asset, Liability and Equity (filtered
only by group, so zero-balance rows are retained), each row carrying
`(codigo, conta, valor)` with `valor = saldo_devedor` for assets and
`valor = saldo_credor` for liabilities and equity. -/
theorem balanco_postcondition (balancete : List LinhaBalancete) :
    (calcula_balanco balancete).ativo =
        (balancete.filter fun r => r.grupo == "Ativo").map
          (fun r => ⟨r.codigo, r.conta, r.saldo_devedor⟩)
      ∧ (calcula_balanco balancete).passivo =
        (balancete.filter fun r => r.grupo == "Passivo").map
          (fun r => ⟨r.codigo, r.conta, r.saldo_credor⟩)
      ∧ (calcula_balanco balancete).pl =
        (balancete.filter fun r => r.grupo == "Patrimônio Líquido").map
          (fun r => ⟨r.codigo, r.conta, r.saldo_credor⟩) :=
  ⟨rfl, rfl, rfl⟩

/-- C3 (refuted): on a journal entry whose debit side is a cash account
and whose credit code `9.9.9` is absent from the chart of accounts,
`calcula_fluxo_caixa_direto` does not return a value: the lookup
`plano.loc["9.9.9", "grupo"]` raises `KeyError` (modelled by `none`),
so the engine is not exception-free on its documented domain. -/
theorem fluxo_direto_unresolved_keyerror :
    calcula_fluxo_caixa_direto
        [⟨"1.1.1", "Caixa", "Ativo", "Devedora", true⟩]
        [⟨"2024-01-01", "venda", "1.1.1", "9.9.9", 50⟩] = none := by
  rfl

/-- C4 (refuted): `calcula_fluxo_caixa_indireto` mutates its
`fluxo_direto` argument: on a nonempty direct-method report the in-place
assignment `fluxo_direto["saldo"] = entrada - saida` leaves the argument
with a new `saldo` column, so its post-call state differs from its
pre-call state. -/
theorem fluxo_indireto_muta_argumento :
    (calcula_fluxo_caixa_indireto []
        ⟨[⟨"Entrada de Caixa", "Resultado - Receita", 100, 0⟩], none⟩ 0).1
      ≠ ⟨[⟨"Entrada de Caixa", "Resultado - Receita", 100, 0⟩], none⟩ := by
  decide

/-- C7: for every trial balance, direct-method report and net income,
`calcula_fluxo_caixa_indireto` outputs exactly four descriptive lines in
order — Net Income/Loss (the given net income), Working-Capital
Adjustment (`caixa_oper - lucro`), Net Operating Cash (`caixa_oper`,
the sum of `entrada - saida` over the direct lines, `0` when the report
is empty), Period Cash Variation (the sum of `saldo` over cash-flagged
trial-balance rows) — and the last two figures are not forced to be
equal: a concrete input where they differ is exhibited. -/
theorem fluxo_indireto_postcondition :
    (∀ (balancete : List LinhaBalancete) (fd : FluxoDf) (lucro : ℚ),
      (calcula_fluxo_caixa_indireto balancete fd lucro).2 =
        [⟨"Lucro / Prejuízo do Período", lucro⟩,
         ⟨"(+/-) Ajustes no capital de giro (simplificado)",
            (fd.linhas.map fun r => r.entrada - r.saida).sum - lucro⟩,
         ⟨"= Caixa líquido das atividades operacionais",
            (fd.linhas.map fun r => r.entrada - r.saida).sum⟩,
         ⟨"Variação de Caixa no Período",
            ((balancete.filter fun r => r.eh_caixa).map (·.saldo)).sum⟩])
    ∧ (((calcula_fluxo_caixa_indireto
          [⟨"1.1.1", "Caixa", "Ativo", "Devedora", true, 5, 0, 5, 5, 0⟩]
          ⟨[], none⟩ 0).2.map (·.valor)).getD 2 0
        ≠ ((calcula_fluxo_caixa_indireto
          [⟨"1.1.1", "Caixa", "Ativo", "Devedora", true, 5, 0, 5, 5, 0⟩]
          ⟨[], none⟩ 0).2.map (·.valor)).getD 3 0) := by
  constructor
  · intro balancete fd lucro
    unfold calcula_fluxo_caixa_indireto
    by_cases h : fd.linhas.isEmpty
    · rw [List.isEmpty_iff] at h
      simp [h]
    · simp [h]
  · with_unfolding_all decide

/-- Posting one entry adds its `valor` to the `debito` column once per
row whose `codigo` matches the entry's debit code. -/
theorem sum_debito_postLancamento (l : Lancamento) (rows : List LinhaTotais) :
    ((postLancamento l rows).map (·.debito)).sum
      = (rows.map (·.debito)).sum
        + l.valor * (rows.countP fun r => r.codigo == l.conta_debito) := by
  induction rows with
  | nil => simp [postLancamento]
  | cons r rs ih =>
    simp only [postLancamento, List.map_cons, List.sum_cons, List.countP_cons] at ih ⊢
    rw [postRow_debito, ih]
    by_cases h : r.codigo == l.conta_debito
    · simp only [h, if_pos]
      push_cast
      ring
    · simp only [h]
      push_cast
      ring

/-- Posting one entry adds its `valor` to the `credito` column once per
row whose `codigo` matches the entry's credit code. -/
theorem sum_credito_postLancamento (l : Lancamento) (rows : List LinhaTotais) :
    ((postLancamento l rows).map (·.credito)).sum
      = (rows.map (·.credito)).sum
        + l.valor * (rows.countP fun r => r.codigo == l.conta_credito) := by
  induction rows with
  | nil => simp [postLancamento]
  | cons r rs ih =>
    simp only [postLancamento, List.map_cons, List.sum_cons, List.countP_cons] at ih ⊢
    rw [postRow_credito, ih]
    by_cases h : r.codigo == l.conta_credito
    · simp only [h, if_pos]
      push_cast
      ring
    · simp only [h]
      push_cast
      ring

/-- Posting an entry never changes the `codigo` column. -/
theorem codigos_postLancamento (l : Lancamento) (rows : List LinhaTotais) :
    (postLancamento l rows).map (·.codigo) = rows.map (·.codigo) := by
  induction rows with
  | nil => rfl
  | cons r rs ih =>
    simp only [postLancamento, List.map_cons] at ih ⊢
    rw [postRow_codigo, ih]

/-- Code-match counts are invariant under posting an entry. -/
theorem countP_codigo_postLancamento (l : Lancamento) (rows : List LinhaTotais)
    (s : String) :
    ((postLancamento l rows).countP fun r => r.codigo == s)
      = rows.countP fun r => r.codigo == s := by
  have h1 : ∀ rs : List LinhaTotais,
      (rs.countP fun r => r.codigo == s)
        = (rs.map (·.codigo)).countP fun c => c == s := by
    intro rs
    rw [List.countP_map]
    rfl
  rw [h1, h1, codigos_postLancamento]

/-- Folding the journal into the totals table preserves the difference
between the column sums, provided each entry's debit code matches as
many rows as its credit code. -/
theorem fold_totais_diff (lancs : List Lancamento) :
    ∀ rows : List LinhaTotais,
      (∀ l ∈ lancs,
        (rows.countP fun r => r.codigo == l.conta_debito)
          = (rows.countP fun r => r.codigo == l.conta_credito)) →
      ((lancs.foldl (fun rs l => postLancamento l rs) rows).map (·.debito)).sum
          - ((lancs.foldl (fun rs l => postLancamento l rs) rows).map (·.credito)).sum
        = (rows.map (·.debito)).sum - (rows.map (·.credito)).sum := by
  induction lancs with
  | nil =>
    intro rows _
    simp
  | cons l ls ih =>
    intro rows H
    have hcnt : ∀ l2 ∈ ls,
        ((postLancamento l rows).countP fun r => r.codigo == l2.conta_debito)
          = ((postLancamento l rows).countP fun r => r.codigo == l2.conta_credito) := by
      intro l2 hl2
      rw [countP_codigo_postLancamento, countP_codigo_postLancamento]
      exact H l2 (List.mem_cons_of_mem l hl2)
    rw [List.foldl_cons, ih (postLancamento l rows) hcnt,
      sum_debito_postLancamento, sum_credito_postLancamento,
      H l (List.mem_cons_self l ls)]
    ring

/-- Code-match counts on the freshly initialised totals table agree with
those on the chart itself. -/
theorem countP_totaisIniciais (plano : List Conta) (s : String) :
    ((totaisIniciais plano).countP fun r => r.codigo == s)
      = plano.countP fun c => c.codigo == s := by
  rw [totaisIniciais, List.countP_map]
  rfl

/-- The initial `debito` column is all zeros. -/
theorem sum_debito_totaisIniciais (plano : List Conta) :
    ((totaisIniciais plano).map (·.debito)).sum = 0 := by
  induction plano with
  | nil => rfl
  | cons c cs ih =>
    have h : totaisIniciais (c :: cs)
        = ⟨c.codigo, c.conta, c.grupo, c.natureza, c.eh_caixa, 0, 0⟩
            :: totaisIniciais cs := rfl
    rw [h, List.map_cons, List.sum_cons, ih]
    simp

/-- The initial `credito` column is all zeros. -/
theorem sum_credito_totaisIniciais (plano : List Conta) :
    ((totaisIniciais plano).map (·.credito)).sum = 0 := by
  induction plano with
  | nil => rfl
  | cons c cs ih =>
    have h : totaisIniciais (c :: cs)
        = ⟨c.codigo, c.conta, c.grupo, c.natureza, c.eh_caixa, 0, 0⟩
            :: totaisIniciais cs := rfl
    rw [h, List.map_cons, List.sum_cons, ih]
    simp

/-- The saldo pass does not change the sum of the `debito` column. -/
theorem sum_debito_calcula_balancete (plano : List Conta) (lancs : List Lancamento) :
    ((calcula_balancete plano lancs).map (·.debito)).sum
      = ((totais plano lancs).map (·.debito)).sum := by
  simp only [calcula_balancete, List.map_map]
  have h : ((fun x : LinhaBalancete => x.debito) ∘ saldosDe)
      = fun t : LinhaTotais => t.debito := funext saldosDe_debito
  rw [h]

/-- The saldo pass does not change the sum of the `credito` column. -/
theorem sum_credito_calcula_balancete (plano : List Conta) (lancs : List Lancamento) :
    ((calcula_balancete plano lancs).map (·.credito)).sum
      = ((totais plano lancs).map (·.credito)).sum := by
  simp only [calcula_balancete, List.map_map]
  have h : ((fun x : LinhaBalancete => x.credito) ∘ saldosDe)
      = fun t : LinhaTotais => t.credito := funext saldosDe_credito
  rw [h]

/-- C1: double-entry conservation. For every chart and every journal in
which each entry's debit and credit codes match exactly one chart row,
the trial balance of `calcula_balancete` satisfies
sum of the `debito` column = sum of the `credito` column, exactly. -/
theorem balancete_conservacao (plano : List Conta) (lancs : List Lancamento)
    (H : ∀ l ∈ lancs,
      (plano.countP fun c => c.codigo == l.conta_debito) = 1
        ∧ (plano.countP fun c => c.codigo == l.conta_credito) = 1) :
    ((calcula_balancete plano lancs).map (·.debito)).sum
      = ((calcula_balancete plano lancs).map (·.credito)).sum := by
  have H2 : ∀ l ∈ lancs,
      ((totaisIniciais plano).countP fun r => r.codigo == l.conta_debito)
        = ((totaisIniciais plano).countP fun r => r.codigo == l.conta_credito) := by
    intro l hl
    rw [countP_totaisIniciais, countP_totaisIniciais, (H l hl).1, (H l hl).2]
  have hdiff := fold_totais_diff lancs (totaisIniciais plano) H2
  rw [sum_debito_totaisIniciais, sum_credito_totaisIniciais, sub_zero] at hdiff
  rw [sum_debito_calcula_balancete, sum_credito_calcula_balancete, totais]
  linarith [hdiff]

/-- C1 witness: on the spec's concrete scenario (cash, revenue and
expense accounts; a 1000 sale and a 300 expense) the hypothesis holds
and debits and credits both total 1300. -/
theorem balancete_conservacao_witness :
    (∀ l ∈ lancsEx,
      (planoEx.countP fun c => c.codigo == l.conta_debito) = 1
        ∧ (planoEx.countP fun c => c.codigo == l.conta_credito) = 1)
      ∧ ((calcula_balancete planoEx lancsEx).map (·.debito)).sum
        = ((calcula_balancete planoEx lancsEx).map (·.credito)).sum :=
  ⟨by decide, balancete_conservacao planoEx lancsEx (by decide)⟩

/-- The debit-natured branch of the saldo computation. -/
theorem saldosDe_devedora (t : LinhaTotais) (h : t.natureza = "Devedora") :
    (saldosDe t).saldo = t.debito - t.credito
      ∧ (saldosDe t).saldo_devedor = max ((saldosDe t).saldo) 0
      ∧ (saldosDe t).saldo_credor = max (-(saldosDe t).saldo) 0 := by
  simp [saldosDe, h]

/-- The credit-natured (else) branch of the saldo computation, taken for
every `natureza` other than the exact string `"Devedora"`. -/
theorem saldosDe_nao_devedora (t : LinhaTotais) (h : ¬t.natureza = "Devedora") :
    (saldosDe t).saldo = t.credito - t.debito
      ∧ (saldosDe t).saldo_credor = max ((saldosDe t).saldo) 0
      ∧ (saldosDe t).saldo_devedor = max (-(saldosDe t).saldo) 0 := by
  simp [saldosDe, h]

/-- C2: balance sign correctness. Every row of the trial balance
returned by `calcula_balancete` satisfies the documented sign
conventions: a Debit-natured (`"Devedora"`) row has
`saldo = debito - credito`, `saldo_devedor = max saldo 0` and
`saldo_credor = max (-saldo) 0`; a Credit-natured (`"Credora"`) row has
`saldo = credito - debito`, `saldo_credor = max saldo 0` and
`saldo_devedor = max (-saldo) 0`. -/
theorem balancete_sinais (plano : List Conta) (lancs : List Lancamento)
    (r : LinhaBalancete) (hr : r ∈ calcula_balancete plano lancs) :
    (r.natureza = "Devedora" →
        r.saldo = r.debito - r.credito
          ∧ r.saldo_devedor = max r.saldo 0
          ∧ r.saldo_credor = max (-r.saldo) 0)
      ∧ (r.natureza = "Credora" →
        r.saldo = r.credito - r.debito
          ∧ r.saldo_credor = max r.saldo 0
          ∧ r.saldo_devedor = max (-r.saldo) 0) := by
  rw [calcula_balancete] at hr
  obtain ⟨t, ht, rfl⟩ := List.mem_map.mp hr
  constructor
  · intro hnat
    rw [saldosDe_natureza] at hnat
    rw [saldosDe_debito, saldosDe_credito]
    exact saldosDe_devedora t hnat
  · intro hnat
    rw [saldosDe_natureza] at hnat
    have hne : ¬t.natureza = "Devedora" := by
      rw [hnat]
      decide
    rw [saldosDe_debito, saldosDe_credito]
    exact saldosDe_nao_devedora t hne

/-- C2 witness: on a chart with a Debit-natured and a Credit-natured
account both driven to `debito = 100, credito = 30`, the rows
`(saldo, saldo_devedor, saldo_credor) = (70, 70, 0)` resp.
`(-70, 70, 0)` are produced and satisfy the sign conventions. -/
theorem balancete_sinais_witness :
    rDevEx ∈ calcula_balancete planoSinais lancsSinais
      ∧ rCredEx ∈ calcula_balancete planoSinais lancsSinais
      ∧ ((rDevEx.natureza = "Devedora" →
            rDevEx.saldo = rDevEx.debito - rDevEx.credito
              ∧ rDevEx.saldo_devedor = max rDevEx.saldo 0
              ∧ rDevEx.saldo_credor = max (-rDevEx.saldo) 0)
          ∧ (rDevEx.natureza = "Credora" →
            rDevEx.saldo = rDevEx.credito - rDevEx.debito
              ∧ rDevEx.saldo_credor = max rDevEx.saldo 0
              ∧ rDevEx.saldo_devedor = max (-rDevEx.saldo) 0))
      ∧ ((rCredEx.natureza = "Devedora" →
            rCredEx.saldo = rCredEx.debito - rCredEx.credito
              ∧ rCredEx.saldo_devedor = max rCredEx.saldo 0
              ∧ rCredEx.saldo_credor = max (-rCredEx.saldo) 0)
          ∧ (rCredEx.natureza = "Credora" →
            rCredEx.saldo = rCredEx.credito - rCredEx.debito
              ∧ rCredEx.saldo_credor = max rCredEx.saldo 0
              ∧ rCredEx.saldo_devedor = max (-rCredEx.saldo) 0)) :=
  ⟨by with_unfolding_all decide, by with_unfolding_all decide,
   balancete_sinais planoSinais lancsSinais rDevEx (by with_unfolding_all decide),
   balancete_sinais planoSinais lancsSinais rCredEx (by with_unfolding_all decide)⟩

/-- C10: only the literal string `"Devedora"` selects the debit-natured
formulas; every other `natureza` value (misspellings, other strings,
empty) gets the credit-natured formulas of the else branch. -/
theorem balancete_natureza_nao_devedora (plano : List Conta)
    (lancs : List Lancamento) (r : LinhaBalancete)
    (hr : r ∈ calcula_balancete plano lancs) (hnat : r.natureza ≠ "Devedora") :
    r.saldo = r.credito - r.debito
      ∧ r.saldo_credor = max r.saldo 0
      ∧ r.saldo_devedor = max (-r.saldo) 0 := by
  rw [calcula_balancete] at hr
  obtain ⟨t, ht, rfl⟩ := List.mem_map.mp hr
  rw [saldosDe_natureza] at hnat
  rw [saldosDe_debito, saldosDe_credito]
  exact saldosDe_nao_devedora t hnat

/-- C10 witness: a chart row whose nature is the misspelled lowercase
string `"devedora"`, driven to `debito = 100, credito = 30`, is balanced
with the credit-natured formulas (`saldo = -70`). -/
theorem balancete_natureza_nao_devedora_witness :
    rMisEx ∈ calcula_balancete planoMisspelled lancsMisspelled
      ∧ rMisEx.natureza ≠ "Devedora"
      ∧ (rMisEx.saldo = rMisEx.credito - rMisEx.debito
          ∧ rMisEx.saldo_credor = max rMisEx.saldo 0
          ∧ rMisEx.saldo_devedor = max (-rMisEx.saldo) 0) :=
  ⟨by with_unfolding_all decide, by decide,
   balancete_natureza_nao_devedora planoMisspelled lancsMisspelled rMisEx
     (by with_unfolding_all decide) (by decide)⟩

/-- Folding any journal leaves the `codigo` column unchanged. -/
theorem codigos_foldl (lancs : List Lancamento) :
    ∀ rows : List LinhaTotais,
      ((lancs.foldl (fun rs l => postLancamento l rs) rows).map (·.codigo))
        = rows.map (·.codigo) := by
  induction lancs with
  | nil => intro rows; rfl
  | cons l ls ih =>
    intro rows
    rw [List.foldl_cons, ih, codigos_postLancamento]

/-- The `codigo` column of the totals table is the chart's code column. -/
theorem codigos_totais (plano : List Conta) (lancs : List Lancamento) :
    (totais plano lancs).map (·.codigo) = plano.map (·.codigo) := by
  rw [totais, codigos_foldl, totaisIniciais, List.map_map]
  rfl

/-- A row whose code does not match an entry's debit code is untouched
by the debit side of that entry. -/
theorem postRow_sem_debito (e : Lancamento) (r : LinhaTotais)
    (h : (r.codigo == e.conta_debito) = false) :
    postRow e r = postRowCredito e r := by
  simp [postRow, postRowDebito, h]

/-- A row whose code does not match an entry's credit code is untouched
by the credit side of that entry. -/
theorem postRow_sem_credito (e : Lancamento) (r : LinhaTotais)
    (h : (r.codigo == e.conta_credito) = false) :
    postRow e r = postRowDebito e r := by
  simp [postRow, postRowCredito, postRowDebito_codigo, h]

/-- When an entry's debit code matches no row, posting the entry posts
only its credit side. -/
theorem postLancamento_sem_debito (e : Lancamento) :
    ∀ rows : List LinhaTotais,
      (∀ r ∈ rows, (r.codigo == e.conta_debito) = false) →
      postLancamento e rows = rows.map (postRowCredito e) := by
  intro rows
  induction rows with
  | nil => intro _; rfl
  | cons r rs ih =>
    intro h
    simp only [postLancamento, List.map_cons] at ih ⊢
    rw [postRow_sem_debito e r (h r (List.mem_cons_self r rs)),
      ih fun r2 hr2 => h r2 (List.mem_cons_of_mem r hr2)]

/-- When an entry's credit code matches no row, posting the entry posts
only its debit side. -/
theorem postLancamento_sem_credito (e : Lancamento) :
    ∀ rows : List LinhaTotais,
      (∀ r ∈ rows, (r.codigo == e.conta_credito) = false) →
      postLancamento e rows = rows.map (postRowDebito e) := by
  intro rows
  induction rows with
  | nil => intro _; rfl
  | cons r rs ih =>
    intro h
    simp only [postLancamento, List.map_cons] at ih ⊢
    rw [postRow_sem_credito e r (h r (List.mem_cons_self r rs)),
      ih fun r2 hr2 => h r2 (List.mem_cons_of_mem r hr2)]

/-- C9: unresolved-reference tolerance in the trial balance. For a
journal `pre ++ e :: post` in which `e`'s debit (resp. credit) code
matches no chart row, `calcula_balancete` still returns a value and that
side's amount is added to no row: the result equals the trial balance in
which `e` contributes only its other side. -/
theorem balancete_referencia_nao_resolvida (plano : List Conta)
    (pre post : List Lancamento) (e : Lancamento) :
    (e.conta_debito ∉ plano.map (·.codigo) →
        calcula_balancete plano (pre ++ e :: post)
          = balanceteSemDebitoDe plano pre e post)
      ∧ (e.conta_credito ∉ plano.map (·.codigo) →
        calcula_balancete plano (pre ++ e :: post)
          = balanceteSemCreditoDe plano pre e post) := by
  have hcod : ∀ r ∈ totais plano pre, r.codigo ∈ plano.map (·.codigo) := by
    intro r hr
    rw [← codigos_totais plano pre]
    exact List.mem_map_of_mem _ hr
  constructor
  · intro hd
    have hall : ∀ r ∈ totais plano pre, (r.codigo == e.conta_debito) = false := by
      intro r hr
      rw [beq_eq_false_iff_ne]
      intro heq
      exact hd (heq ▸ hcod r hr)
    rw [calcula_balancete, totais, balanceteSemDebitoDe, totaisSemDebitoDe]
    simp only [List.foldl_append, List.foldl_cons]
    rw [show List.foldl (fun rows l => postLancamento l rows)
          (totaisIniciais plano) pre = totais plano pre from rfl,
      postLancamento_sem_debito e (totais plano pre) hall]
  · intro hc
    have hall : ∀ r ∈ totais plano pre, (r.codigo == e.conta_credito) = false := by
      intro r hr
      rw [beq_eq_false_iff_ne]
      intro heq
      exact hc (heq ▸ hcod r hr)
    rw [calcula_balancete, totais, balanceteSemCreditoDe, totaisSemCreditoDe]
    simp only [List.foldl_append, List.foldl_cons]
    rw [show List.foldl (fun rows l => postLancamento l rows)
          (totaisIniciais plano) pre = totais plano pre from rfl,
      postLancamento_sem_credito e (totais plano pre) hall]

/-- C9 witness: inserting an entry with the unknown debit code `9.9.9`
between the two scenario entries leaves the trial balance equal to the
one in which that entry posts only its credit side. -/
theorem balancete_referencia_nao_resolvida_witness :
    lancSemDebitoEx.conta_debito ∉ planoEx.map (·.codigo)
      ∧ calcula_balancete planoEx ([lancEx1] ++ lancSemDebitoEx :: [lancEx2])
        = balanceteSemDebitoDe planoEx [lancEx1] lancSemDebitoEx [lancEx2] :=
  ⟨by decide,
   (balancete_referencia_nao_resolvida planoEx [lancEx1] [lancEx2]
     lancSemDebitoEx).1 (by decide)⟩

/-- C5: direct-method classification. For an entry whose two account
codes both resolve in the chart (`cd` for debit, `cc` for credit), the
classification stage of `calcula_fluxo_caixa_direto` produces a line if
and only if exactly one side is a cash account: an Inflow carrying the
credit account's group and the entry amount when only the debit side is
cash, an Outflow carrying the debit account's group and the entry amount
when only the credit side is cash, and no line when both or neither side
is cash. -/
theorem fluxo_direto_classificacao (plano : List Conta) (l : Lancamento)
    (cd cc : Conta)
    (hd : planoIdx plano l.conta_debito = some cd)
    (hc : planoIdx plano l.conta_credito = some cc) :
    (classifica plano l
        = some (some ⟨"Entrada de Caixa", cc.grupo, l.valor, 0⟩)
      ↔ l.conta_debito ∈ contas_caixa plano
          ∧ l.conta_credito ∉ contas_caixa plano)
  ∧ (classifica plano l
        = some (some ⟨"Saída de Caixa", cd.grupo, 0, l.valor⟩)
      ↔ l.conta_credito ∈ contas_caixa plano
          ∧ l.conta_debito ∉ contas_caixa plano)
  ∧ (classifica plano l = some none
      ↔ (l.conta_debito ∈ contas_caixa plano
          ↔ l.conta_credito ∈ contas_caixa plano)) := by
  have hne : ¬("Entrada de Caixa" = "Saída de Caixa") := by decide
  have hne2 : ¬("Saída de Caixa" = "Entrada de Caixa") := by decide
  by_cases hA : l.conta_debito ∈ contas_caixa plano
    <;> by_cases hB : l.conta_credito ∈ contas_caixa plano
  · simp [classifica, hA, hB]
  · simp [classifica, hA, hB, hc, hne]
  · simp [classifica, hA, hB, hd, hne2]
  · simp [classifica, hA, hB]

/-- C5 witness: the scenario sale (debit cash `1.1.1`, credit revenue
`3.1.1`, amount 1000) resolves both sides and classifies as an Inflow
with counterpart group Revenue. -/
theorem fluxo_direto_classificacao_witness :
    planoIdx planoEx lancEx1.conta_debito = some contaCaixaEx
      ∧ planoIdx planoEx lancEx1.conta_credito = some contaReceitaEx
      ∧ ((classifica planoEx lancEx1
            = some (some ⟨"Entrada de Caixa", contaReceitaEx.grupo, lancEx1.valor, 0⟩)
          ↔ lancEx1.conta_debito ∈ contas_caixa planoEx
              ∧ lancEx1.conta_credito ∉ contas_caixa planoEx)
        ∧ (classifica planoEx lancEx1
            = some (some ⟨"Saída de Caixa", contaCaixaEx.grupo, 0, lancEx1.valor⟩)
          ↔ lancEx1.conta_credito ∈ contas_caixa planoEx
              ∧ lancEx1.conta_debito ∉ contas_caixa planoEx)
        ∧ (classifica planoEx lancEx1 = some none
          ↔ (lancEx1.conta_debito ∈ contas_caixa planoEx
              ↔ lancEx1.conta_credito ∈ contas_caixa planoEx))) :=
  ⟨by decide, by decide,
   fluxo_direto_classificacao planoEx lancEx1 contaCaixaEx contaReceitaEx
     (by decide) (by decide)⟩
